import Mathlib

/-!
# Rays inspector: frame loop, input aggregation and grid push constants

A shallow embedding of `example.app.cpp` (module `pngp.vis.rays`): the GLFW
input callbacks, the grid push-constant derivation, the shader file lookup, the
body of `RaysInspector::run` and the command recording of
`RaysInspector::record_commands`.

Conventions of the embedding.

* `float` and `double` values are elements of `Flt`: not-a-number, the two
  infinities, or a finite value carried as an exact rational. Rounding to the
  binary formats is not modelled, and zero carries no sign.
* Calls into collaborators that live in other modules (`vk::frame`,
  `vk::swapchain`, `vk::imgui`, `vk::camera`, command buffer methods) are
  recorded as events in a trace; what they return is an input of the model.
* The window user pointer is the `InputState` installed by the constructor, so
  the `if (!s) return;` guard of the callbacks is never taken.
* An exception thrown by a collaborator ends `run`; the model covers the
  executions in which none is thrown. `read_shader_bytes`, which catches and
  rethrows, returns an `Except`.
-/

namespace Rays

/-! ## Floating point values -/

/-- Value of a C++ `float` or `double`: NaN, an infinity, or a finite number. -/
inductive Flt where
  | nan : Flt
  | ninf : Flt
  | pinf : Flt
  | fin (q : ℚ) : Flt
deriving DecidableEq

namespace Flt

/-- The comparison `a < b`; false as soon as one side is NaN. -/
def lt : Flt → Flt → Bool
  | nan, _ => false
  | _, nan => false
  | ninf, ninf => false
  | ninf, _ => true
  | _, ninf => false
  | pinf, _ => false
  | fin _, pinf => true
  | fin a, fin b => decide (a < b)

/-- The comparison `a <= b`; false as soon as one side is NaN. -/
def le : Flt → Flt → Bool
  | nan, _ => false
  | _, nan => false
  | ninf, _ => true
  | _, pinf => true
  | pinf, _ => false
  | fin _, ninf => false
  | fin a, fin b => decide (a ≤ b)

/-- The comparison `a > b`. -/
def gt (a b : Flt) : Bool := lt b a

/-- The comparison `a >= b`. -/
def ge (a b : Flt) : Bool := le b a

/-- Unary minus. -/
def neg : Flt → Flt
  | nan => nan
  | ninf => pinf
  | pinf => ninf
  | fin a => fin (-a)

/-- Addition; opposite infinities give NaN. -/
def add : Flt → Flt → Flt
  | nan, _ => nan
  | _, nan => nan
  | pinf, ninf => nan
  | ninf, pinf => nan
  | pinf, _ => pinf
  | ninf, _ => ninf
  | fin _, pinf => pinf
  | fin _, ninf => ninf
  | fin a, fin b => fin (a + b)

/-- Subtraction. -/
def sub (a b : Flt) : Flt := add a (neg b)

/-- An infinity with the sign of `s`, NaN when `s` is zero. -/
def signedInf (s : ℚ) : Flt :=
  if s = 0 then nan else if 0 < s then pinf else ninf

/-- Multiplication; zero times an infinity gives NaN. -/
def mul : Flt → Flt → Flt
  | nan, _ => nan
  | _, nan => nan
  | fin a, fin b => fin (a * b)
  | fin a, pinf => signedInf a
  | fin a, ninf => signedInf (-a)
  | pinf, fin b => signedInf b
  | ninf, fin b => signedInf (-b)
  | pinf, pinf => pinf
  | pinf, ninf => ninf
  | ninf, pinf => ninf
  | ninf, ninf => pinf

/-- Division; an infinity over an infinity and zero over zero give NaN. -/
def div : Flt → Flt → Flt
  | nan, _ => nan
  | _, nan => nan
  | fin a, fin b => if b = 0 then signedInf a else fin (a / b)
  | fin _, pinf => fin 0
  | fin _, ninf => fin 0
  | pinf, fin b => if 0 ≤ b then pinf else ninf
  | ninf, fin b => if 0 ≤ b then ninf else pinf
  | pinf, pinf => nan
  | pinf, ninf => nan
  | ninf, pinf => nan
  | ninf, ninf => nan

/-- The conversion `static_cast<float>(i)` of an integer. -/
def ofInt (i : Int) : Flt := fin (i : ℚ)

/-- The encoding `b ? 1.0f : 0.0f` of a flag. -/
def ofBool (b : Bool) : Flt := if b then fin 1 else fin 0

end Flt

/-- `std::max(a, b)` on floats: `(a < b) ? b : a`. -/
def std_max (a b : Flt) : Flt := if Flt.lt a b then b else a

/-- `std::min(a, b)` on floats: `(b < a) ? b : a`. -/
def std_min (a b : Flt) : Flt := if Flt.lt b a then b else a

/-- `std::max(a, b)` on `int`: `(a < b) ? b : a`. -/
def std_max_int (a b : Int) : Int := if a < b then b else a

/-! ## Grid settings and push constants -/

/-- `vk::math::vec4`. -/
structure vec4 where
  x : Flt
  y : Flt
  z : Flt
  w : Flt
deriving DecidableEq

/-- `vk::math::mat4`, four columns. -/
structure mat4 where
  c0 : vec4
  c1 : vec4
  c2 : vec4
  c3 : vec4
deriving DecidableEq

/-- `pngp::vis::rays::GridSettings`, the fields the translation unit reads. -/
structure GridSettings where
  show_grid : Bool
  show_axes : Bool
  show_origin : Bool
  grid_extent : Flt
  grid_step : Flt
  major_every : Int
  axis_length : Flt
  origin_scale : Flt
  fly_mode : Bool
deriving DecidableEq

/-- `GridPush`: the push constants consumed by the grid shader. -/
structure GridPush where
  mvp : mat4
  grid : vec4
  toggles : vec4
deriving DecidableEq

/-- `make_grid_push`: convert UI settings to shader constants. -/
def make_grid_push (grid : GridSettings) (mvp : mat4) : GridPush :=
  let step := std_max (Flt.fin (1 / 1000)) grid.grid_step
  let extent := std_max (Flt.fin (1 / 10)) grid.grid_extent
  let major := Flt.ofInt (std_max_int 1 grid.major_every)
  { mvp := mvp
    grid := ⟨step, Flt.mul step major, extent, std_max (Flt.fin (1 / 1000)) grid.axis_length⟩
    toggles := ⟨std_max (Flt.fin (1 / 1000)) grid.origin_scale, Flt.ofBool grid.show_grid,
      Flt.ofBool grid.show_axes, Flt.ofBool grid.show_origin⟩ }

/-! ## Input state and GLFW callbacks -/

/-- `pngp::vis::rays::InputState`: raw input collected between frames. The key
table is indexed by GLFW key code; a read past its end yields `false`. -/
structure InputState where
  keys : List Bool
  lmb : Bool
  mmb : Bool
  rmb : Bool
  dx : Flt
  dy : Flt
  scroll : Flt
  last_x : Flt
  last_y : Flt
  have_last : Bool
deriving DecidableEq

def GLFW_RELEASE : Int := 0
def GLFW_PRESS : Int := 1
def GLFW_REPEAT : Int := 2
def GLFW_MOUSE_BUTTON_LEFT : Int := 0
def GLFW_MOUSE_BUTTON_RIGHT : Int := 1
def GLFW_MOUSE_BUTTON_MIDDLE : Int := 2
def GLFW_KEY_SPACE : Nat := 32
def GLFW_KEY_A : Nat := 65
def GLFW_KEY_D : Nat := 68
def GLFW_KEY_E : Nat := 69
def GLFW_KEY_Q : Nat := 81
def GLFW_KEY_S : Nat := 83
def GLFW_KEY_W : Nat := 87
def GLFW_KEY_LEFT_SHIFT : Nat := 340
def GLFW_KEY_LEFT_CONTROL : Nat := 341
def GLFW_KEY_LEFT_ALT : Nat := 342
def GLFW_KEY_RIGHT_SHIFT : Nat := 344
def GLFW_KEY_RIGHT_CONTROL : Nat := 345
def GLFW_KEY_RIGHT_ALT : Nat := 346

/-- The read `input.keys[k]`. -/
def InputState.key (s : InputState) (k : Nat) : Bool := s.keys.getD k false

/-- `glfw_key_cb`: record press and release of an in-range key. -/
def glfw_key_cb (s : InputState) (key action : Int) : InputState :=
  if key < 0 ∨ key ≥ (s.keys.length : Int) then s
  else
    let s1 := if action = GLFW_PRESS then { s with keys := s.keys.set key.toNat true } else s
    if action = GLFW_RELEASE then { s1 with keys := s1.keys.set key.toNat false } else s1

/-- `glfw_mouse_button_cb`: record the button level; anything but a press drops
the cursor baseline. -/
def glfw_mouse_button_cb (s : InputState) (button action : Int) : InputState :=
  let down : Bool := decide (action = GLFW_PRESS)
  let s1 := if button = GLFW_MOUSE_BUTTON_LEFT then { s with lmb := down } else s
  let s2 := if button = GLFW_MOUSE_BUTTON_MIDDLE then { s1 with mmb := down } else s1
  let s3 := if button = GLFW_MOUSE_BUTTON_RIGHT then { s2 with rmb := down } else s2
  if !down then { s3 with have_last := false } else s3

/-- `glfw_cursor_pos_cb`: the first position sets the baseline, later ones
accumulate the difference to it. -/
def glfw_cursor_pos_cb (s : InputState) (x y : Flt) : InputState :=
  if !s.have_last then
    { s with last_x := x, last_y := y, have_last := true }
  else
    { s with
      dx := Flt.add s.dx (Flt.sub x s.last_x)
      dy := Flt.add s.dy (Flt.sub y s.last_y)
      last_x := x
      last_y := y }

/-- `glfw_scroll_cb`: accumulate the vertical scroll offset. -/
def glfw_scroll_cb (s : InputState) (_xoff yoff : Flt) : InputState :=
  { s with scroll := Flt.add s.scroll yoff }

/-- One callback invocation made by GLFW while events are polled. -/
inductive GlfwCallback where
  | key (key action : Int)
  | mouse_button (button action : Int)
  | cursor_pos (x y : Flt)
  | scroll (xoff yoff : Flt)
deriving DecidableEq

/-- Dispatch of one callback on the input state. -/
def GlfwCallback.deliver (s : InputState) : GlfwCallback → InputState
  | .key k a => glfw_key_cb s k a
  | .mouse_button b a => glfw_mouse_button_cb s b a
  | .cursor_pos x y => glfw_cursor_pos_cb s x y
  | .scroll xo yo => glfw_scroll_cb s xo yo

/-- `glfwPollEvents`: the pending callbacks run in order. -/
def glfwPollEvents (s : InputState) (cbs : List GlfwCallback) : InputState :=
  cbs.foldl GlfwCallback.deliver s

/-! ## Ground plane mesh -/

/-- `vk::geometry::VertexP3C4`: position and colour. -/
structure VertexP3C4 where
  pos : vec4
  color : vec4
deriving DecidableEq

/-- `vk::memory::MeshCPU<VertexP3C4>`. -/
structure MeshCPU where
  vertices : List VertexP3C4
  indices : List Nat
deriving DecidableEq

/-- `vk::memory::MeshGPU`, reduced to the index count the draw reads; the
buffer handles carry no information in this model. -/
structure MeshGPU where
  index_count : Nat
deriving DecidableEq

/-- `build_ground_plane`: one quad of half-size `max(0.1, extent)`. -/
def build_ground_plane (extent : Flt) : MeshCPU :=
  let clamped_extent := std_max (Flt.fin (1 / 10)) extent
  let color : vec4 := ⟨Flt.fin 1, Flt.fin 1, Flt.fin 1, Flt.fin 1⟩
  { vertices :=
      [ ⟨⟨Flt.neg clamped_extent, Flt.fin 0, Flt.neg clamped_extent, Flt.fin 0⟩, color⟩,
        ⟨⟨clamped_extent, Flt.fin 0, Flt.neg clamped_extent, Flt.fin 0⟩, color⟩,
        ⟨⟨clamped_extent, Flt.fin 0, clamped_extent, Flt.fin 0⟩, color⟩,
        ⟨⟨Flt.neg clamped_extent, Flt.fin 0, clamped_extent, Flt.fin 0⟩, color⟩ ]
    indices := [0, 1, 2, 0, 2, 3] }

/-- `upload_mesh_safe`: an empty GPU mesh for empty CPU data, otherwise the
result of `vk::memory::upload_mesh`, which is a parameter. -/
def upload_mesh_safe (upload_mesh : MeshCPU → MeshGPU) (mesh : MeshCPU) : MeshGPU :=
  if mesh.vertices.isEmpty || mesh.indices.isEmpty then ⟨0⟩ else upload_mesh mesh

/-! ## Shader lookup -/

/-- A C++ exception in flight: a `std::runtime_error` with its message, or any
other exception object. -/
inductive Exception where
  | runtime_error (what : String)
  | other (tag : Nat)
deriving DecidableEq

abbrev Bytes := List Nat

/-- The loop of `read_shader_bytes` from a given `last_error`. The second
component lists the paths handed to `read_file_bytes`, in call order. -/
def read_shader_bytes_loop (read_file_bytes : String → Except Exception Bytes) :
    Option Exception → List String → Except Exception Bytes × List String
  | last_error, [] =>
    (match last_error with
      | some e => Except.error e
      | none => Except.error (Exception.runtime_error "ground_grid.spv not found"), [])
  | _, path :: rest =>
    match read_file_bytes path with
    | Except.ok bytes => (Except.ok bytes, [path])
    | Except.error e =>
      let r := read_shader_bytes_loop read_file_bytes (some e) rest
      (r.1, path :: r.2)

/-- `read_shader_bytes`: load SPIR-V from the first readable path. -/
def read_shader_bytes (read_file_bytes : String → Except Exception Bytes)
    (paths : List String) : Except Exception Bytes × List String :=
  read_shader_bytes_loop read_file_bytes none paths

/-! ## The main loop -/

/-- `vk::camera::CameraInput`, the fields `run` assigns. -/
structure CameraInput where
  lmb : Bool
  mmb : Bool
  rmb : Bool
  mouse_dx : Flt
  mouse_dy : Flt
  scroll : Flt
  shift : Bool
  ctrl : Bool
  alt : Bool
  space : Bool
  forward : Bool
  backward : Bool
  left : Bool
  right : Bool
  down : Bool
  up : Bool
deriving DecidableEq

/-- Frame timing of `run`: the measured duration, replaced by `1/60` unless it
is positive, then capped at `0.05`. -/
def frame_dt (measured : Flt) : Flt :=
  let dt := if !(Flt.gt measured (Flt.fin 0)) then Flt.div (Flt.fin 1) (Flt.fin 60) else measured
  std_min dt (Flt.fin (1 / 20))

/-- The `CameraInput` that `run` fills from the input state and the two ImGui
capture flags. -/
def camera_input (block_mouse block_kbd : Bool) (input : InputState) : CameraInput :=
  { lmb := !block_mouse && input.lmb
    mmb := !block_mouse && input.mmb
    rmb := !block_mouse && input.rmb
    mouse_dx := if !block_mouse then input.dx else Flt.fin 0
    mouse_dy := if !block_mouse then input.dy else Flt.fin 0
    scroll := if !block_mouse then input.scroll else Flt.fin 0
    shift := !block_kbd && (input.key GLFW_KEY_LEFT_SHIFT || input.key GLFW_KEY_RIGHT_SHIFT)
    ctrl := !block_kbd && (input.key GLFW_KEY_LEFT_CONTROL || input.key GLFW_KEY_RIGHT_CONTROL)
    alt := !block_kbd && (input.key GLFW_KEY_LEFT_ALT || input.key GLFW_KEY_RIGHT_ALT)
    space := !block_kbd && input.key GLFW_KEY_SPACE
    forward := !block_kbd && input.key GLFW_KEY_W
    backward := !block_kbd && input.key GLFW_KEY_S
    left := !block_kbd && input.key GLFW_KEY_A
    right := !block_kbd && input.key GLFW_KEY_D
    down := !block_kbd && input.key GLFW_KEY_Q
    up := !block_kbd && input.key GLFW_KEY_E }

/-- The reset of the per-frame deltas after the camera update. -/
def reset_deltas (input : InputState) : InputState :=
  { input with dx := Flt.fin 0, dy := Flt.fin 0, scroll := Flt.fin 0 }

/-- Result of `vk::frame::begin_frame`. -/
structure BeginFrameResult where
  ok : Bool
  need_recreate : Bool
  image_index : Nat
deriving DecidableEq

/-- What the collaborators report during one iteration of the loop. -/
structure IterEnv where
  callbacks : List GlfwCallback
  measured_dt : Flt
  begin_frame : BeginFrameResult
  imgui_panel : GridSettings → GridSettings × Bool
  upload_mesh : MeshCPU → MeshGPU
  want_capture_mouse : Bool
  want_capture_keyboard : Bool
  extent_width : Nat
  extent_height : Nat
  view_proj : mat4
  end_frame : Bool

/-- A call made by `run` into a collaborator. -/
inductive RunEvent where
  | poll_events
  | begin_frame (frame_index : Nat)
  | recreate_swapchain
  | on_swapchain_recreated
  | set_min_image_count (count : Nat)
  | wait_idle
  | create_grid_pipeline
  | begin_commands (frame_index : Nat)
  | imgui_begin_frame
  | imgui_panel
  | upload_mesh_safe (mesh : MeshCPU)
  | cam_set_mode (fly : Bool)
  | cam_update (dt : Flt) (width height : Nat) (ci : CameraInput)
  | draw_mini_axis_gizmo
  | record_commands (frame_index image_index : Nat)
  | end_frame (frame_index image_index : Nat)
  | imgui_shutdown
deriving DecidableEq

/-- The members of `RaysInspector` that `run` reads and writes, with its local
`frame_index`. -/
structure RunState where
  frame_index : Nat
  input : InputState
  grid : GridSettings
  grid_mesh : MeshGPU
  grid_mvp : mat4
deriving DecidableEq

/-- The calls that rebuild the swapchain and what depends on it. -/
def recreate_events : List RunEvent :=
  [ RunEvent.recreate_swapchain, RunEvent.on_swapchain_recreated,
    RunEvent.set_min_image_count 2, RunEvent.wait_idle, RunEvent.create_grid_pipeline ]

/-- One pass through the body of the `while` loop of `run`, for `N` frames in
flight. `frame_index` is a `uint32_t`. -/
def run_iteration (N : Nat) (st : RunState) (env : IterEnv) : RunState × List RunEvent :=
  let input := glfwPollEvents st.input env.callbacks
  let dt := frame_dt env.measured_dt
  let frame_index := st.frame_index
  let bf := env.begin_frame
  if !bf.ok || bf.need_recreate then
    ({ st with input := input },
      [RunEvent.poll_events, RunEvent.begin_frame frame_index] ++ recreate_events)
  else
    let panel := env.imgui_panel st.grid
    let grid := panel.1
    let rebuild_mesh := panel.2
    let mesh_cpu := build_ground_plane grid.grid_extent
    let grid_mesh := if rebuild_mesh then upload_mesh_safe env.upload_mesh mesh_cpu else st.grid_mesh
    let ci := camera_input env.want_capture_mouse env.want_capture_keyboard input
    let need_recreate := env.end_frame
    ({ frame_index := ((frame_index + 1) % 2 ^ 32) % N
       input := reset_deltas input
       grid := grid
       grid_mesh := grid_mesh
       grid_mvp := env.view_proj },
      [RunEvent.poll_events, RunEvent.begin_frame frame_index,
        RunEvent.begin_commands frame_index, RunEvent.imgui_begin_frame, RunEvent.imgui_panel]
      ++ (if rebuild_mesh then [RunEvent.wait_idle, RunEvent.upload_mesh_safe mesh_cpu] else [])
      ++ [RunEvent.cam_set_mode grid.fly_mode,
        RunEvent.cam_update dt env.extent_width env.extent_height ci,
        RunEvent.draw_mini_axis_gizmo,
        RunEvent.record_commands frame_index bf.image_index,
        RunEvent.end_frame frame_index bf.image_index]
      ++ (if need_recreate then recreate_events else []))

/-- The loop of `run`: one iteration per entry of `envs`, after which the
window asks to close. The traces of the iterations are kept apart. -/
def run_loop (N : Nat) : RunState → List IterEnv → RunState × List (List RunEvent)
  | st, [] => (st, [])
  | st, env :: rest =>
    let r := run_iteration N st env
    let rs := run_loop N r.1 rest
    (rs.1, r.2 :: rs.2)

/-- `RaysInspector::run`: the loop from `frame_index = 0`, then the shutdown. -/
def run (N : Nat) (st : RunState) (envs : List IterEnv) : RunState × List (List RunEvent) :=
  let r := run_loop N { st with frame_index := 0 } envs
  (r.1, r.2 ++ [[RunEvent.wait_idle, RunEvent.imgui_shutdown]])

/-- The frame slot an iteration renders into: the argument of its
`begin_commands` call, if it makes one. -/
def rendered_slot (trace : List RunEvent) : Option Nat :=
  trace.findSome? fun e =>
    match e with
    | RunEvent.begin_commands i => some i
    | _ => none

/-- Whether an iteration gets past `begin_frame`. -/
def IterEnv.renders (env : IterEnv) : Bool :=
  env.begin_frame.ok && !env.begin_frame.need_recreate

/-! ## Command recording -/

/-- The `vk::ImageLayout` values in play; `eUndefined` is what a read past the
end of the tracker yields. -/
inductive ImageLayout where
  | eUndefined
  | eGeneral
  | eColorAttachmentOptimal
  | eDepthStencilAttachmentOptimal
  | ePresentSrcKHR
deriving DecidableEq

/-- The `vk::PipelineStageFlagBits2` values in play. -/
inductive PipelineStage where
  | eNone
  | eTopOfPipe
  | eColorAttachmentOutput
  | eEarlyFragmentTests
  | eBottomOfPipe
deriving DecidableEq

/-- The `vk::AccessFlagBits2` values in play. -/
inductive AccessFlag where
  | eNone
  | eColorAttachmentWrite
  | eDepthStencilAttachmentWrite
deriving DecidableEq

/-- The image a barrier names. -/
inductive ImageRef where
  | swapchain_image (image_index : Nat)
  | depth_image
deriving DecidableEq

/-- `vk::ImageMemoryBarrier2`, with the aspect of its subresource range. -/
structure ImageMemoryBarrier2 where
  srcStageMask : PipelineStage
  srcAccessMask : AccessFlag
  dstStageMask : PipelineStage
  dstAccessMask : AccessFlag
  oldLayout : ImageLayout
  newLayout : ImageLayout
  image : ImageRef
  depthAspect : Bool
deriving DecidableEq

/-- A command recorded into the frame's command buffer, or a call into the UI
backend made while recording. -/
inductive Cmd where
  | pipelineBarrier2 (barrier : ImageMemoryBarrier2)
  | beginRendering (image_index : Nat)
  | setViewport
  | setScissor
  | bindPipeline
  | pushConstants (push : GridPush)
  | bindVertexBuffers
  | bindIndexBuffer
  | drawIndexed (index_count instance_count first_index : Nat) (vertex_offset : Int)
      (first_instance : Nat)
  | endRendering
  | imgui_render (image_index : Nat)
  | imgui_end_frame
deriving DecidableEq

/-- The members `record_commands` reads and writes: the layout trackers of the
frame system and the swapchain, the grid settings, mesh and matrix. -/
structure RecordState where
  swapchain_image_layout : List ImageLayout
  depth_layout : ImageLayout
  grid : GridSettings
  grid_mesh : MeshGPU
  grid_mvp : mat4
deriving DecidableEq

/-- The first barrier of `record_commands`: swapchain image to colour
attachment, from the layout `old`. -/
def barrier_to_color (old : ImageLayout) (image_index : Nat) : ImageMemoryBarrier2 :=
  { srcStageMask := PipelineStage.eTopOfPipe
    srcAccessMask := AccessFlag.eNone
    dstStageMask := PipelineStage.eColorAttachmentOutput
    dstAccessMask := AccessFlag.eColorAttachmentWrite
    oldLayout := old
    newLayout := ImageLayout.eColorAttachmentOptimal
    image := ImageRef.swapchain_image image_index
    depthAspect := false }

/-- The second barrier of `record_commands`: depth image to depth attachment,
from the layout `old`. -/
def barrier_to_depth (old : ImageLayout) : ImageMemoryBarrier2 :=
  { srcStageMask := PipelineStage.eTopOfPipe
    srcAccessMask := AccessFlag.eNone
    dstStageMask := PipelineStage.eEarlyFragmentTests
    dstAccessMask := AccessFlag.eDepthStencilAttachmentWrite
    oldLayout := old
    newLayout := ImageLayout.eDepthStencilAttachmentOptimal
    image := ImageRef.depth_image
    depthAspect := true }

/-- The last barrier of `record_commands`: swapchain image from colour
attachment to presentation. -/
def barrier_to_present (image_index : Nat) : ImageMemoryBarrier2 :=
  { srcStageMask := PipelineStage.eColorAttachmentOutput
    srcAccessMask := AccessFlag.eColorAttachmentWrite
    dstStageMask := PipelineStage.eBottomOfPipe
    dstAccessMask := AccessFlag.eNone
    oldLayout := ImageLayout.eColorAttachmentOptimal
    newLayout := ImageLayout.ePresentSrcKHR
    image := ImageRef.swapchain_image image_index
    depthAspect := false }

/-- `RaysInspector::record_commands`: the new trackers and the commands in
recording order. -/
def record_commands (st : RecordState) (_frame_index image_index : Nat) :
    RecordState × List Cmd :=
  let to_color :=
    barrier_to_color (st.swapchain_image_layout.getD image_index ImageLayout.eUndefined)
      image_index
  let st1 : RecordState :=
    { st with
      swapchain_image_layout :=
        st.swapchain_image_layout.set image_index ImageLayout.eColorAttachmentOptimal }
  let to_depth := barrier_to_depth st1.depth_layout
  let st2 : RecordState :=
    { st1 with depth_layout := ImageLayout.eDepthStencilAttachmentOptimal }
  let grid_visible := st2.grid.show_grid || st2.grid.show_axes || st2.grid.show_origin
  let draw : List Cmd :=
    if decide (st2.grid_mesh.index_count > 0) && grid_visible then
      [ Cmd.bindPipeline, Cmd.pushConstants (make_grid_push st2.grid st2.grid_mvp),
        Cmd.bindVertexBuffers, Cmd.bindIndexBuffer,
        Cmd.drawIndexed st2.grid_mesh.index_count 1 0 0 0 ]
    else []
  let to_present := barrier_to_present image_index
  let st3 : RecordState :=
    { st2 with
      swapchain_image_layout :=
        st2.swapchain_image_layout.set image_index ImageLayout.ePresentSrcKHR }
  (st3,
    [Cmd.pipelineBarrier2 to_color, Cmd.pipelineBarrier2 to_depth,
      Cmd.beginRendering image_index, Cmd.setViewport, Cmd.setScissor]
    ++ draw
    ++ [Cmd.endRendering, Cmd.imgui_render image_index, Cmd.imgui_end_frame,
      Cmd.pipelineBarrier2 to_present])

/-- Whether a command belongs to the grid draw. -/
def Cmd.isGridDraw : Cmd → Bool
  | Cmd.bindPipeline => true
  | Cmd.pushConstants _ => true
  | Cmd.bindVertexBuffers => true
  | Cmd.bindIndexBuffer => true
  | Cmd.drawIndexed _ _ _ _ _ => true
  | _ => false

/-- Whether a command is a draw call. -/
def Cmd.isDrawCall : Cmd → Bool
  | Cmd.drawIndexed _ _ _ _ _ => true
  | _ => false

/-- The commands recorded after the first `beginRendering` and before the
`endRendering` that follows it. -/
def rendering_section (cmds : List Cmd) : List Cmd :=
  ((cmds.dropWhile fun c =>
      match c with
      | Cmd.beginRendering _ => false
      | _ => true).drop 1).takeWhile fun c => decide (c ≠ Cmd.endRendering)

/-! ## Reference readings used in the statements -/

/-- The ratio `grid.y / grid.x`: the major line interval the shader sees. -/
def major_ratio (p : GridPush) : Flt := Flt.div p.grid.y p.grid.x

/-- The maximum of a finite bound `c` and `x` in the order of the extended
reals; the bound itself when `x` is not a number. -/
def max_with_bound (c : ℚ) : Flt → Flt
  | Flt.nan => Flt.fin c
  | Flt.ninf => Flt.fin c
  | Flt.pinf => Flt.pinf
  | Flt.fin q => Flt.fin (max c q)

/-- Settings with every numeric field zero or negative. -/
def grid_nonpositive : GridSettings :=
  { show_grid := true, show_axes := false, show_origin := false
    grid_extent := Flt.fin 0, grid_step := Flt.fin (-3), major_every := -7
    axis_length := Flt.fin (-1), origin_scale := Flt.fin 0, fly_mode := false }

/-- Settings whose grid step is `+infinity`, all else as the sliders allow. -/
def grid_infinite_step : GridSettings :=
  { show_grid := true, show_axes := true, show_origin := true
    grid_extent := Flt.fin 10, grid_step := Flt.pinf, major_every := 5
    axis_length := Flt.fin 1, origin_scale := Flt.fin 1, fly_mode := false }

/-- Consuming a snapshot: the `CameraInput` read from the input state under the
frame's capture flags, and the input state after the reset of its deltas. -/
def consume_snapshot (block_mouse block_kbd : Bool) (input : InputState) :
    CameraInput × InputState :=
  (camera_input block_mouse block_kbd input, reset_deltas input)

/-- An input state with the left button and the `W` key held and pending
deltas. -/
def input_held : InputState :=
  { keys := (List.replicate 349 false).set GLFW_KEY_W true
    lmb := true, mmb := false, rmb := false
    dx := Flt.fin 12, dy := Flt.fin (-4), scroll := Flt.fin 1
    last_x := Flt.fin 100, last_y := Flt.fin 50, have_last := true }

/-- The frame slots used by the rendered frames of a run, in order. -/
def rendered_slots (traces : List (List RunEvent)) : List Nat :=
  traces.filterMap rendered_slot

/-- Whether an event is one of the calls that start, record or submit a frame. -/
def RunEvent.isFrameWork : RunEvent → Bool
  | RunEvent.begin_commands _ => true
  | RunEvent.record_commands _ _ => true
  | RunEvent.end_frame _ _ => true
  | _ => false

/-- The zero matrix. -/
def mat4_zero : mat4 :=
  let z : vec4 := ⟨Flt.fin 0, Flt.fin 0, Flt.fin 0, Flt.fin 0⟩
  ⟨z, z, z, z⟩

/-- An iteration with nothing polled, a good `begin_frame` and both capture
flags raised. -/
def env_renders : IterEnv :=
  { callbacks := []
    measured_dt := Flt.fin (1 / 100)
    begin_frame := ⟨true, false, 0⟩
    imgui_panel := fun g => (g, false)
    upload_mesh := fun m => ⟨m.indices.length⟩
    want_capture_mouse := true
    want_capture_keyboard := true
    extent_width := 1280
    extent_height := 720
    view_proj := mat4_zero
    end_frame := false }

/-- An iteration whose `begin_frame` asks for a new swapchain. -/
def env_blocked : IterEnv :=
  { env_renders with begin_frame := ⟨false, true, 0⟩ }

/-- An iteration whose `end_frame` asks for a new swapchain. -/
def env_stale_present : IterEnv :=
  { env_renders with end_frame := true }

/-- A loop state with held input. -/
def state_held : RunState :=
  { frame_index := 0, input := input_held, grid := grid_nonpositive
    grid_mesh := ⟨6⟩, grid_mvp := mat4_zero }

/-- The candidate paths `create_grid_pipeline` passes to `read_shader_bytes`. -/
def grid_shader_paths : List String :=
  ["shaders/ground_grid.spv", "../shaders/ground_grid.spv"]

/-- A file system that holds the shader in the parent directory only. -/
def read_parent_only (path : String) : Except Exception Bytes :=
  if path = "../shaders/ground_grid.spv" then Except.ok [3, 2, 35, 7]
  else Except.error (Exception.other 2)

/-- Trackers and settings with a six-index mesh and only the axes shown. -/
def record_state_axes : RecordState :=
  { swapchain_image_layout :=
      [ImageLayout.eUndefined, ImageLayout.ePresentSrcKHR, ImageLayout.eUndefined]
    depth_layout := ImageLayout.eUndefined
    grid := { grid_nonpositive with show_grid := false, show_axes := true }
    grid_mesh := ⟨6⟩
    grid_mvp := mat4_zero }

/-- The layout the trackers hold for an image: the entry of the frame system
for a swapchain image, `swapchain.depth_layout` for the depth image. -/
def RecordState.tracked (st : RecordState) : ImageRef → ImageLayout
  | ImageRef.swapchain_image i => st.swapchain_image_layout.getD i ImageLayout.eUndefined
  | ImageRef.depth_image => st.depth_layout

/-- `RaysInspector::record_commands` once more, each command paired with the
members as they stand at the moment it is recorded. -/
def record_commands_log (st : RecordState) (_frame_index image_index : Nat) :
    RecordState × List (RecordState × Cmd) :=
  let to_color :=
    barrier_to_color (st.swapchain_image_layout.getD image_index ImageLayout.eUndefined)
      image_index
  let st1 : RecordState :=
    { st with
      swapchain_image_layout :=
        st.swapchain_image_layout.set image_index ImageLayout.eColorAttachmentOptimal }
  let to_depth := barrier_to_depth st1.depth_layout
  let st2 : RecordState :=
    { st1 with depth_layout := ImageLayout.eDepthStencilAttachmentOptimal }
  let grid_visible := st2.grid.show_grid || st2.grid.show_axes || st2.grid.show_origin
  let draw : List (RecordState × Cmd) :=
    if decide (st2.grid_mesh.index_count > 0) && grid_visible then
      [ (st2, Cmd.bindPipeline),
        (st2, Cmd.pushConstants (make_grid_push st2.grid st2.grid_mvp)),
        (st2, Cmd.bindVertexBuffers), (st2, Cmd.bindIndexBuffer),
        (st2, Cmd.drawIndexed st2.grid_mesh.index_count 1 0 0 0) ]
    else []
  let to_present := barrier_to_present image_index
  let st3 : RecordState :=
    { st2 with
      swapchain_image_layout :=
        st2.swapchain_image_layout.set image_index ImageLayout.ePresentSrcKHR }
  (st3,
    [(st, Cmd.pipelineBarrier2 to_color), (st1, Cmd.pipelineBarrier2 to_depth),
      (st2, Cmd.beginRendering image_index), (st2, Cmd.setViewport), (st2, Cmd.setScissor)]
    ++ draw
    ++ [(st2, Cmd.endRendering), (st2, Cmd.imgui_render image_index),
      (st2, Cmd.imgui_end_frame), (st2, Cmd.pipelineBarrier2 to_present)])

/-- The layout barriers among recorded commands, in recording order. -/
def barriers (cmds : List Cmd) : List ImageMemoryBarrier2 :=
  cmds.filterMap fun c =>
    match c with
    | Cmd.pipelineBarrier2 b => some b
    | _ => none

/-- What a barrier does to a layout: the image, the layout it leaves and the
layout it enters. -/
def ImageMemoryBarrier2.transition (b : ImageMemoryBarrier2) :
    ImageRef × ImageLayout × ImageLayout :=
  (b.image, b.oldLayout, b.newLayout)

/-- The positions of the cursor callbacks among `cbs`, in delivery order. -/
def cursor_positions (cbs : List GlfwCallback) : List (Flt × Flt) :=
  cbs.filterMap fun cb =>
    match cb with
    | GlfwCallback.cursor_pos x y => some (x, y)
    | _ => none

/-- The vertical offsets of the scroll callbacks among `cbs`, in delivery
order. -/
def scroll_offsets (cbs : List GlfwCallback) : List Flt :=
  cbs.filterMap fun cb =>
    match cb with
    | GlfwCallback.scroll _ yoff => some yoff
    | _ => none

/-- A finite position as the pair of floats the callback receives. -/
def exact_position (p : ℚ × ℚ) : Flt × Flt := (Flt.fin p.1, Flt.fin p.2)

/-- An input state right after the per-frame reset, with no baseline. -/
def input_fresh : InputState :=
  { keys := List.replicate 349 false
    lmb := false, mmb := false, rmb := false
    dx := Flt.fin 0, dy := Flt.fin 0, scroll := Flt.fin 0
    last_x := Flt.fin 0, last_y := Flt.fin 0, have_last := false }

/-- A drag: three cursor positions with a key press, a button press and two
scroll steps in between. -/
def drag_callbacks : List GlfwCallback :=
  [ GlfwCallback.cursor_pos (Flt.fin 10) (Flt.fin 10),
    GlfwCallback.key 87 GLFW_PRESS,
    GlfwCallback.mouse_button GLFW_MOUSE_BUTTON_LEFT GLFW_PRESS,
    GlfwCallback.cursor_pos (Flt.fin 13) (Flt.fin 8),
    GlfwCallback.scroll (Flt.fin 0) (Flt.fin 1),
    GlfwCallback.scroll (Flt.fin 0) (Flt.fin (-3)),
    GlfwCallback.cursor_pos (Flt.fin 11) (Flt.fin 15) ]

/-! ## Clamping lemmas -/

theorem std_max_eq_max_with_bound (c : ℚ) (x : Flt) :
    std_max (Flt.fin c) x = max_with_bound c x := by
  cases x with
  | nan => rfl
  | ninf => rfl
  | pinf => rfl
  | fin q =>
    by_cases h : c < q
    · simp [std_max, Flt.lt, max_with_bound, h, max_eq_right (le_of_lt h)]
    · simp [std_max, Flt.lt, max_with_bound, h, max_eq_left (not_lt.mp h)]

theorem ge_max_with_bound (c : ℚ) (x : Flt) :
    Flt.ge (max_with_bound c x) (Flt.fin c) = true := by
  cases x <;> simp [max_with_bound, Flt.ge, Flt.le]

theorem std_max_int_eq (a b : Int) : std_max_int a b = max a b := by
  unfold std_max_int
  by_cases h : a < b
  · simp [h, max_eq_right (le_of_lt h)]
  · simp [h, max_eq_left (not_lt.mp h)]

theorem max_with_bound_cases (c : ℚ) (x : Flt) :
    (x = Flt.pinf ∧ max_with_bound c x = Flt.pinf) ∨
    (x ≠ Flt.pinf ∧ ∃ s : ℚ, c ≤ s ∧ max_with_bound c x = Flt.fin s) := by
  cases x with
  | nan => exact Or.inr ⟨by simp, c, le_refl c, rfl⟩
  | ninf => exact Or.inr ⟨by simp, c, le_refl c, rfl⟩
  | pinf => exact Or.inl ⟨rfl, rfl⟩
  | fin q => exact Or.inr ⟨by simp, max c q, le_max_left c q, rfl⟩

/-! ## Push constants -/

/-- C2 (as stated, refuted): with `grid_step = +infinity` the step and the major
spacing are both infinite, their ratio is not a number and the comparison
`grid.y / grid.x >= 1` is false. -/
theorem make_grid_push_ratio_infinite_step :
    (make_grid_push grid_infinite_step mat4_zero).grid.x = Flt.pinf ∧
    (make_grid_push grid_infinite_step mat4_zero).grid.y = Flt.pinf ∧
    major_ratio (make_grid_push grid_infinite_step mat4_zero) = Flt.nan ∧
    Flt.ge (major_ratio (make_grid_push grid_infinite_step mat4_zero)) (Flt.fin 1) = false := by
  have hx : (make_grid_push grid_infinite_step mat4_zero).grid.x = Flt.pinf := rfl
  have hy : (make_grid_push grid_infinite_step mat4_zero).grid.y = Flt.pinf := by
    simp [make_grid_push, grid_infinite_step, std_max, Flt.lt, Flt.ofInt, Flt.mul,
      Flt.signedInf, std_max_int]
  refine ⟨hx, hy, ?_, ?_⟩ <;> simp [major_ratio, hx, hy, Flt.div, Flt.ge, Flt.le]

/-- C2 (amended): for every `GridSettings` and matrix, `make_grid_push` yields
step `grid.x >= 0.001`, extent `grid.z >= 0.1`, axis length `grid.w >= 0.001`,
origin scale `toggles.x >= 0.001`, and an integer major interval
`max(1, major_every) >= 1` with `grid.y = grid.x * interval`; the ratio
`grid.y / grid.x` is `>= 1` exactly when `grid_step` is not `+infinity`. -/
theorem make_grid_push_bounds (g : GridSettings) (m : mat4) :
    Flt.ge (make_grid_push g m).grid.x (Flt.fin (1 / 1000)) = true ∧
    Flt.ge (make_grid_push g m).grid.z (Flt.fin (1 / 10)) = true ∧
    Flt.ge (make_grid_push g m).grid.w (Flt.fin (1 / 1000)) = true ∧
    Flt.ge (make_grid_push g m).toggles.x (Flt.fin (1 / 1000)) = true ∧
    (1 ≤ std_max_int 1 g.major_every ∧
      (make_grid_push g m).grid.y =
        Flt.mul (make_grid_push g m).grid.x (Flt.ofInt (std_max_int 1 g.major_every))) ∧
    (Flt.ge (major_ratio (make_grid_push g m)) (Flt.fin 1) = true ↔ g.grid_step ≠ Flt.pinf) := by
  have hk : (1 : Int) ≤ std_max_int 1 g.major_every := by
    rw [std_max_int_eq]; exact le_max_left _ _
  have hkq : (1 : ℚ) ≤ ((std_max_int 1 g.major_every : Int) : ℚ) := by exact_mod_cast hk
  refine ⟨?_, ?_, ?_, ?_, ⟨hk, rfl⟩, ?_⟩
  · simp only [make_grid_push, std_max_eq_max_with_bound]; exact ge_max_with_bound _ _
  · simp only [make_grid_push, std_max_eq_max_with_bound]; exact ge_max_with_bound _ _
  · simp only [make_grid_push, std_max_eq_max_with_bound]; exact ge_max_with_bound _ _
  · simp only [make_grid_push, std_max_eq_max_with_bound]; exact ge_max_with_bound _ _
  · simp only [major_ratio, make_grid_push, std_max_eq_max_with_bound, Flt.ofInt]
    rcases max_with_bound_cases (1 / 1000) g.grid_step with ⟨hinf, hs⟩ | ⟨hne, s, hcs, hs⟩
    · have h1 : (0 : ℚ) < ((std_max_int 1 g.major_every : Int) : ℚ) := by linarith
      rw [hs]
      simp [hinf, Flt.mul, Flt.signedInf, Flt.div, Flt.ge, Flt.le, h1, ne_of_gt h1]
    · have hs0 : (0 : ℚ) < s := by
        have : (0 : ℚ) < 1 / 1000 := by norm_num
        linarith
      have hdiv : s * ((std_max_int 1 g.major_every : Int) : ℚ) / s
          = ((std_max_int 1 g.major_every : Int) : ℚ) := by
        field_simp
      rw [hs]
      simp [hne, Flt.mul, Flt.div, Flt.ge, Flt.le, ne_of_gt hs0, hdiv, hkq]

/-- C2 witness: zero and negative settings still give a major ratio `>= 1`. -/
theorem make_grid_push_bounds_witness :
    Flt.ge (major_ratio (make_grid_push grid_nonpositive mat4_zero)) (Flt.fin 1) = true :=
  (make_grid_push_bounds grid_nonpositive mat4_zero).2.2.2.2.2.mpr (by decide)

/-- C3: `make_grid_push g m` is the matrix `m` unchanged, then the vector
`(s, s * k, e, a)` with `s = max(0.001, grid_step)`, `k = max(1, major_every)`
as a float, `e = max(0.1, grid_extent)`, `a = max(0.001, axis_length)`, then the
vector `(max(0.001, origin_scale), b show_grid, b show_axes, b show_origin)`
with `b true = 1` and `b false = 0`. -/
theorem make_grid_push_eq (g : GridSettings) (m : mat4) :
    make_grid_push g m =
      GridPush.mk m
        (vec4.mk (max_with_bound (1 / 1000) g.grid_step)
          (Flt.mul (max_with_bound (1 / 1000) g.grid_step)
            (Flt.fin (((max 1 g.major_every : Int) : ℚ))))
          (max_with_bound (1 / 10) g.grid_extent)
          (max_with_bound (1 / 1000) g.axis_length))
        (vec4.mk (max_with_bound (1 / 1000) g.origin_scale)
          (if g.show_grid = true then Flt.fin 1 else Flt.fin 0)
          (if g.show_axes = true then Flt.fin 1 else Flt.fin 0)
          (if g.show_origin = true then Flt.fin 1 else Flt.fin 0)) := by
  simp only [make_grid_push, std_max_eq_max_with_bound, std_max_int_eq, Flt.ofInt, Flt.ofBool]

/-! ## Frame time -/

theorem frame_dt_fin (q : ℚ) :
    frame_dt (Flt.fin q) = Flt.fin (if q ≤ 0 then 1 / 60 else min q (1 / 20)) := by
  by_cases h : q ≤ 0
  · have h1 : ¬ (0 : ℚ) < q := not_lt.mpr h
    have h2 : ¬ ((1 : ℚ) / 20 < 1 / 60) := by norm_num
    simp only [frame_dt, Flt.gt, Flt.lt, Flt.div, std_min, h, h1, if_true]
    norm_num
  · have h1 : (0 : ℚ) < q := not_le.mp h
    simp only [frame_dt, Flt.gt, Flt.lt, std_min, h, h1, decide_True, Bool.not_true,
      Bool.false_eq_true, if_false, decide_eq_true_eq]
    split_ifs with h3
    · rw [min_eq_right (le_of_lt h3)]
    · rw [min_eq_left (not_lt.mp h3)]

/-- C7: for a finite measured frame time `dt`, the value `run` hands to
`cam.update` is `1/60` when `dt <= 0` and `min(dt, 1/20)` when `dt > 0`; it is
finite, strictly positive and at most `1/20`. -/
theorem frame_dt_finite (q : ℚ) :
    frame_dt (Flt.fin q) = Flt.fin (if q ≤ 0 then 1 / 60 else min q (1 / 20)) ∧
    (0 : ℚ) < (if q ≤ 0 then 1 / 60 else min q (1 / 20)) ∧
    (if q ≤ 0 then 1 / 60 else min q (1 / 20)) ≤ (1 : ℚ) / 20 ∧
    Flt.gt (frame_dt (Flt.fin q)) (Flt.fin 0) = true ∧
    Flt.le (frame_dt (Flt.fin q)) (Flt.fin (1 / 20)) = true := by
  have hpos : (0 : ℚ) < (if q ≤ 0 then 1 / 60 else min q (1 / 20)) := by
    split
    · norm_num
    · rename_i h
      exact lt_min (not_le.mp h) (by norm_num)
  have hle : (if q ≤ 0 then 1 / 60 else min q (1 / 20)) ≤ (1 : ℚ) / 20 := by
    split
    · norm_num
    · exact min_le_right _ _
  refine ⟨frame_dt_fin q, hpos, hle, ?_, ?_⟩
  · rw [frame_dt_fin]; simpa [Flt.gt, Flt.lt] using hpos
  · rw [frame_dt_fin]; simpa [Flt.le] using hle

/-- C8 (as stated, refuted): a measured frame time of `+infinity` passes the
positivity test and is capped, so the value used is `1/20`, not `1/60`. -/
theorem frame_dt_pinf_not_nominal :
    frame_dt Flt.pinf = Flt.fin (1 / 20) ∧ frame_dt Flt.pinf ≠ Flt.fin (1 / 60) := by
  have h : frame_dt Flt.pinf = Flt.fin (1 / 20) := by
    simp [frame_dt, Flt.gt, Flt.lt, std_min]
  refine ⟨h, ?_⟩
  rw [h]
  intro hc
  injection hc with hq
  norm_num at hq

/-- C8 (amended): a measured frame time that is NaN or `-infinity` is replaced
by the nominal `1/60`; `+infinity` is capped to `1/20`. -/
theorem frame_dt_non_finite :
    frame_dt Flt.nan = Flt.fin (1 / 60) ∧
    frame_dt Flt.ninf = Flt.fin (1 / 60) ∧
    frame_dt Flt.pinf = Flt.fin (1 / 20) := by
  have h2 : ¬ ((1 : ℚ) / 20 < 1 / 60) := by norm_num
  refine ⟨?_, ?_, ?_⟩
  · simp only [frame_dt, Flt.gt, Flt.lt, Flt.div, std_min]; norm_num
  · simp only [frame_dt, Flt.gt, Flt.lt, Flt.div, std_min]; norm_num
  · simp [frame_dt, Flt.gt, Flt.lt, std_min]

/-! ## Camera input and consumption -/

/-- C4: in every rendering iteration of `run` the camera is updated with the
`CameraInput` built from the polled input state, and that record honours the UI
capture flags: with `WantCaptureMouse` the three buttons are false and the
pointer and scroll deltas are zero; with `WantCaptureKeyboard` the ten key
fields are false; whatever the buttons, deltas and keys of the input state. -/
theorem camera_input_honours_capture (N : Nat) (st : RunState) (env : IterEnv)
    (hr : env.renders = true) :
    RunEvent.cam_update (frame_dt env.measured_dt) env.extent_width env.extent_height
        (camera_input env.want_capture_mouse env.want_capture_keyboard
          (glfwPollEvents st.input env.callbacks)) ∈ (run_iteration N st env).2 ∧
    (∀ (input : InputState) (block_kbd : Bool),
      (camera_input true block_kbd input).lmb = false ∧
      (camera_input true block_kbd input).mmb = false ∧
      (camera_input true block_kbd input).rmb = false ∧
      (camera_input true block_kbd input).mouse_dx = Flt.fin 0 ∧
      (camera_input true block_kbd input).mouse_dy = Flt.fin 0 ∧
      (camera_input true block_kbd input).scroll = Flt.fin 0) ∧
    (∀ (input : InputState) (block_mouse : Bool),
      (camera_input block_mouse true input).shift = false ∧
      (camera_input block_mouse true input).ctrl = false ∧
      (camera_input block_mouse true input).alt = false ∧
      (camera_input block_mouse true input).space = false ∧
      (camera_input block_mouse true input).forward = false ∧
      (camera_input block_mouse true input).backward = false ∧
      (camera_input block_mouse true input).left = false ∧
      (camera_input block_mouse true input).right = false ∧
      (camera_input block_mouse true input).down = false ∧
      (camera_input block_mouse true input).up = false) := by
  refine ⟨?_, ?_, ?_⟩
  · have hb : (!env.begin_frame.ok || env.begin_frame.need_recreate) = false := by
      simp only [IterEnv.renders, Bool.and_eq_true, Bool.not_eq_true'] at hr
      simp [hr.1, hr.2]
    simp [run_iteration, hb]
  · intro input block_kbd
    simp [camera_input]
  · intro input block_mouse
    simp [camera_input]

theorem run_iteration_consumes (N : Nat) (st : RunState) (env : IterEnv)
    (hr : env.renders = true) :
    RunEvent.cam_update (frame_dt env.measured_dt) env.extent_width env.extent_height
        (consume_snapshot env.want_capture_mouse env.want_capture_keyboard
          (glfwPollEvents st.input env.callbacks)).1 ∈ (run_iteration N st env).2 ∧
    (run_iteration N st env).1.input =
      (consume_snapshot env.want_capture_mouse env.want_capture_keyboard
        (glfwPollEvents st.input env.callbacks)).2 := by
  have hb : (!env.begin_frame.ok || env.begin_frame.need_recreate) = false := by
    simp only [IterEnv.renders, Bool.and_eq_true, Bool.not_eq_true'] at hr
    simp [hr.1, hr.2]
  simp [run_iteration, hb, consume_snapshot]

/-- C5: for every input state, consuming twice with no callback in between
gives a second snapshot whose pointer and scroll deltas are zero, whatever the
capture flags of either frame; consumption leaves the buttons and the key table
of the input state as they were, so under the same capture flags the second
snapshot reports the same button and key states as the first. -/
theorem consume_twice (input : InputState) (block_mouse block_kbd : Bool)
    (block_mouse2 block_kbd2 : Bool) :
    (consume_snapshot block_mouse2 block_kbd2
        (consume_snapshot block_mouse block_kbd input).2).1.mouse_dx = Flt.fin 0 ∧
    (consume_snapshot block_mouse2 block_kbd2
        (consume_snapshot block_mouse block_kbd input).2).1.mouse_dy = Flt.fin 0 ∧
    (consume_snapshot block_mouse2 block_kbd2
        (consume_snapshot block_mouse block_kbd input).2).1.scroll = Flt.fin 0 ∧
    ((consume_snapshot block_mouse block_kbd input).2.lmb = input.lmb ∧
      (consume_snapshot block_mouse block_kbd input).2.mmb = input.mmb ∧
      (consume_snapshot block_mouse block_kbd input).2.rmb = input.rmb ∧
      (consume_snapshot block_mouse block_kbd input).2.keys = input.keys) ∧
    { (consume_snapshot block_mouse block_kbd
          (consume_snapshot block_mouse block_kbd input).2).1 with
        mouse_dx := Flt.fin 0, mouse_dy := Flt.fin 0, scroll := Flt.fin 0 } =
      { (consume_snapshot block_mouse block_kbd input).1 with
        mouse_dx := Flt.fin 0, mouse_dy := Flt.fin 0, scroll := Flt.fin 0 } := by
  refine ⟨?_, ?_, ?_, ⟨rfl, rfl, rfl, rfl⟩, ?_⟩
  · cases block_mouse2 <;> simp [consume_snapshot, camera_input, reset_deltas]
  · cases block_mouse2 <;> simp [consume_snapshot, camera_input, reset_deltas]
  · cases block_mouse2 <;> simp [consume_snapshot, camera_input, reset_deltas]
  · cases block_mouse <;> cases block_kbd <;>
      simp [consume_snapshot, camera_input, reset_deltas, InputState.key]

/-- C6: after `glfw_mouse_button_cb` with a release action, for any button, the
baseline is dropped and the deltas are as before; the next
`glfw_cursor_pos_cb`, at any position, leaves `dx` and `dy` unchanged and only
stores that position as the new baseline. -/
theorem release_discards_baseline (s : InputState) (button : Int) (x y : Flt) :
    (glfw_mouse_button_cb s button GLFW_RELEASE).have_last = false ∧
    (glfw_mouse_button_cb s button GLFW_RELEASE).dx = s.dx ∧
    (glfw_mouse_button_cb s button GLFW_RELEASE).dy = s.dy ∧
    glfw_cursor_pos_cb (glfw_mouse_button_cb s button GLFW_RELEASE) x y =
      { glfw_mouse_button_cb s button GLFW_RELEASE with
        last_x := x, last_y := y, have_last := true } := by
  have hd : decide (GLFW_RELEASE = GLFW_PRESS) = false := by decide
  have h : (glfw_mouse_button_cb s button GLFW_RELEASE).have_last = false := by
    simp only [glfw_mouse_button_cb, hd]
    split_ifs <;> simp_all
  refine ⟨h, ?_, ?_, ?_⟩
  · simp only [glfw_mouse_button_cb, hd]
    split_ifs <;> simp_all
  · simp only [glfw_mouse_button_cb, hd]
    split_ifs <;> simp_all
  · simp [glfw_cursor_pos_cb, h]

/-! ## Frame index of the main loop -/

theorem renders_false_iff (env : IterEnv) :
    env.renders = false ↔ (!env.begin_frame.ok || env.begin_frame.need_recreate) = true := by
  unfold IterEnv.renders
  cases env.begin_frame.ok <;> cases env.begin_frame.need_recreate <;> simp

theorem run_iteration_blocked (N : Nat) (st : RunState) (env : IterEnv)
    (h : env.renders = false) :
    run_iteration N st env =
      ({ st with input := glfwPollEvents st.input env.callbacks },
        [RunEvent.poll_events, RunEvent.begin_frame st.frame_index] ++ recreate_events) := by
  have hb := (renders_false_iff env).mp h
  simp only [run_iteration, hb, if_true]

theorem run_iteration_renders (N : Nat) (st : RunState) (env : IterEnv)
    (h : env.renders = true) :
    (run_iteration N st env).1.frame_index = ((st.frame_index + 1) % 2 ^ 32) % N ∧
    rendered_slot (run_iteration N st env).2 = some st.frame_index := by
  have hb : (!env.begin_frame.ok || env.begin_frame.need_recreate) = false := by
    cases hc : (!env.begin_frame.ok || env.begin_frame.need_recreate)
    · rfl
    · rw [(renders_false_iff env).mpr hc] at h
      exact absurd h (by simp)
  simp [run_iteration, hb, rendered_slot, List.findSome?]

theorem rendered_slot_blocked (N : Nat) (st : RunState) (env : IterEnv)
    (h : env.renders = false) : rendered_slot (run_iteration N st env).2 = none := by
  rw [run_iteration_blocked N st env h]
  simp [rendered_slot, recreate_events, List.findSome?]

theorem run_iteration_index_lt (N : Nat) (hN : 0 < N) (st : RunState) (env : IterEnv)
    (h : st.frame_index < N) : (run_iteration N st env).1.frame_index < N := by
  cases hr : env.renders
  · rw [run_iteration_blocked N st env hr]
    exact h
  · rw [(run_iteration_renders N st env hr).1]
    exact Nat.mod_lt _ hN

theorem run_loop_index_lt (N : Nat) (hN : 0 < N) (envs : List IterEnv) :
    ∀ st : RunState, st.frame_index < N → (run_loop N st envs).1.frame_index < N := by
  induction envs with
  | nil => intro st h; exact h
  | cons env rest ih =>
    intro st h
    simp only [run_loop]
    exact ih _ (run_iteration_index_lt N hN st env h)

theorem run_loop_slots (envs : List IterEnv) :
    ∀ st : RunState, st.frame_index < 2 →
      rendered_slots (run_loop 2 st envs).2 =
        (List.range (envs.filter IterEnv.renders).length).map
          fun i => (st.frame_index + i) % 2 := by
  induction envs with
  | nil => intro st _; simp [run_loop, rendered_slots]
  | cons env rest ih =>
    intro st h
    have hlt := run_iteration_index_lt 2 (by decide) st env h
    have hrest := ih (run_iteration 2 st env).1 hlt
    simp only [rendered_slots] at hrest ⊢
    cases hr : env.renders
    · have hsame : (run_iteration 2 st env).1.frame_index = st.frame_index := by
        rw [run_iteration_blocked 2 st env hr]
      simp only [run_loop, List.filterMap_cons, rendered_slot_blocked 2 st env hr, hrest,
        hsame, List.filter_cons, hr]
      simp
    · obtain ⟨hidx, hslot⟩ := run_iteration_renders 2 st env hr
      have hstep : (run_iteration 2 st env).1.frame_index = (st.frame_index + 1) % 2 := by
        rw [hidx]
        have : st.frame_index + 1 < 2 ^ 32 := by omega
        rw [Nat.mod_eq_of_lt this]
      simp only [run_loop, List.filterMap_cons, hslot, hrest, hstep, List.filter_cons, hr,
        if_true, List.length_cons, List.range_succ_eq_map, List.map_cons, List.map_map]
      refine congrArg₂ List.cons (by omega) ?_
      apply List.map_congr_left
      intro i _
      simp only [Function.comp, Nat.succ_eq_add_one]
      omega

/-- C1: with `N` frames in flight, an iteration of `run` whose `begin_frame`
reports not-ok or need-recreate calls `recreate_swapchain` exactly once, makes
no `begin_commands`, `record_commands` or `end_frame` call and leaves
`frame_index` as it was; any other iteration moves `frame_index` to
`(frame_index + 1) mod N`, whatever `end_frame` answers. So `frame_index < N`
holds after any number of iterations from 0, and for `N = 2` the slots of the
rendered frames are `0, 1, 0, 1, ...` whatever `begin_frame` reports. -/
theorem run_frame_index (N : Nat) (hN : 0 < N) (h32 : N < 2 ^ 32) :
    (∀ (st : RunState) (env : IterEnv), env.renders = false →
      (run_iteration N st env).2.count RunEvent.recreate_swapchain = 1 ∧
      (∀ e ∈ (run_iteration N st env).2, e.isFrameWork = false) ∧
      (run_iteration N st env).1.frame_index = st.frame_index) ∧
    (∀ (st : RunState) (env : IterEnv), env.renders = true → st.frame_index < N →
      (run_iteration N st env).1.frame_index = (st.frame_index + 1) % N ∧
      rendered_slot (run_iteration N st env).2 = some st.frame_index) ∧
    (∀ (st : RunState) (envs : List IterEnv), (run N st envs).1.frame_index < N) ∧
    (∀ (st : RunState) (envs : List IterEnv), N = 2 →
      rendered_slots (run N st envs).2 =
        (List.range (envs.filter IterEnv.renders).length).map fun i => i % 2) := by
  refine ⟨?_, ?_, ?_, ?_⟩
  · intro st env h
    rw [run_iteration_blocked N st env h]
    refine ⟨by simp [recreate_events, List.count_cons], ?_, rfl⟩
    intro e he
    simp only [recreate_events, List.cons_append, List.nil_append, List.mem_cons,
      List.mem_singleton, List.not_mem_nil, or_false] at he
    rcases he with h | h | h | h | h | h | h <;> rw [h] <;> rfl
  · intro st env h hlt
    obtain ⟨hidx, hslot⟩ := run_iteration_renders N st env h
    refine ⟨?_, hslot⟩
    rw [hidx]
    have : st.frame_index + 1 < 2 ^ 32 := by omega
    rw [Nat.mod_eq_of_lt this]
  · intro st envs
    simp only [run]
    exact run_loop_index_lt N hN envs _ hN
  · intro st envs h2
    subst h2
    have h := run_loop_slots envs { st with frame_index := 0 } Nat.zero_lt_two
    simp only [run, rendered_slots, List.filterMap_append] at h ⊢
    rw [h]
    simp [rendered_slot, List.findSome?]

/-- C1 witness: six iterations with two blocked ones and one stale present. -/
theorem run_frame_index_witness :
    rendered_slots (run 2 state_held
      [env_renders, env_blocked, env_stale_present, env_blocked, env_renders, env_renders]).2 =
      [0, 1, 0, 1] := by
  rw [(run_frame_index 2 (by decide) (by norm_num)).2.2.2 state_held _ rfl]
  rfl

/-- C4 witness: the left button and `W` are held while both flags are raised. -/
theorem camera_input_honours_capture_witness :
    input_held.lmb = true ∧ input_held.key GLFW_KEY_W = true ∧
    RunEvent.cam_update (frame_dt env_renders.measured_dt) env_renders.extent_width
        env_renders.extent_height
        (camera_input env_renders.want_capture_mouse env_renders.want_capture_keyboard
          (glfwPollEvents state_held.input env_renders.callbacks)) ∈
      (run_iteration 2 state_held env_renders).2 ∧
    (camera_input true true input_held).lmb = false ∧
    (camera_input true true input_held).forward = false :=
  ⟨rfl, by decide, (camera_input_honours_capture 2 state_held env_renders rfl).1,
    ((camera_input_honours_capture 2 state_held env_renders rfl).2.1 input_held true).1,
    ((camera_input_honours_capture 2 state_held env_renders rfl).2.2 input_held true).2.2.2.2.1⟩

/-! ## Shader lookup -/

theorem read_shader_bytes_loop_found (read_file_bytes : String → Except Exception Bytes)
    (p : String) (post : List String) (b : Bytes) (hp : read_file_bytes p = Except.ok b)
    (pre : List String) :
    ∀ last_error : Option Exception,
      (∀ q ∈ pre, ∃ e, read_file_bytes q = Except.error e) →
      read_shader_bytes_loop read_file_bytes last_error (pre ++ p :: post) =
        (Except.ok b, pre ++ [p]) := by
  induction pre with
  | nil =>
    intro last_error _
    simp [read_shader_bytes_loop, hp]
  | cons q rest ih =>
    intro last_error hfail
    obtain ⟨e, he⟩ := hfail q (List.mem_cons_self q rest)
    have hrest := ih (some e) fun r hr => hfail r (List.mem_cons_of_mem q hr)
    simp [read_shader_bytes_loop, he, hrest]

theorem read_shader_bytes_loop_all_fail (read_file_bytes : String → Except Exception Bytes)
    (paths : List String) :
    ∀ (last_error : Option Exception) (hne : paths ≠ []) (e : Exception),
      (∀ q ∈ paths, ∃ e0, read_file_bytes q = Except.error e0) →
      read_file_bytes (paths.getLast hne) = Except.error e →
      read_shader_bytes_loop read_file_bytes last_error paths = (Except.error e, paths) := by
  induction paths with
  | nil => intro _ hne; exact absurd rfl hne
  | cons q rest ih =>
    intro last_error hne e hfail hlast
    obtain ⟨e0, he0⟩ := hfail q (List.mem_cons_self q rest)
    cases rest with
    | nil =>
      simp only [List.getLast_singleton] at hlast
      rw [he0] at hlast
      injection hlast with hee
      simp [read_shader_bytes_loop, he0, hee]
    | cons r rest2 =>
      have hne2 : r :: rest2 ≠ [] := by simp
      have hlast2 : read_file_bytes ((r :: rest2).getLast hne2) = Except.error e := by
        rw [List.getLast_cons hne2] at hlast
        exact hlast
      have hrest := ih (some e0) hne2 e
        (fun x hx => hfail x (List.mem_cons_of_mem q hx)) hlast2
      simp only [read_shader_bytes_loop, he0] at hrest ⊢
      simp [hrest]

/-- C9: `read_shader_bytes` returns the bytes of the first path, in list order,
whose read succeeds, after reading exactly the paths up to and including it;
when the list is not empty and every read fails it fails with the error of the
last path; on the empty list it fails with
`runtime_error("ground_grid.spv not found")`. -/
theorem read_shader_bytes_result (read_file_bytes : String → Except Exception Bytes) :
    (∀ (pre : List String) (p : String) (post : List String) (b : Bytes),
      (∀ q ∈ pre, ∃ e, read_file_bytes q = Except.error e) →
      read_file_bytes p = Except.ok b →
      read_shader_bytes read_file_bytes (pre ++ p :: post) = (Except.ok b, pre ++ [p])) ∧
    (∀ (paths : List String) (hne : paths ≠ []) (e : Exception),
      (∀ q ∈ paths, ∃ e0, read_file_bytes q = Except.error e0) →
      read_file_bytes (paths.getLast hne) = Except.error e →
      read_shader_bytes read_file_bytes paths = (Except.error e, paths)) ∧
    read_shader_bytes read_file_bytes [] =
      (Except.error (Exception.runtime_error "ground_grid.spv not found"), []) := by
  refine ⟨?_, ?_, rfl⟩
  · intro pre p post b hfail hp
    exact read_shader_bytes_loop_found read_file_bytes p post b hp pre none hfail
  · intro paths hne e hfail hlast
    exact read_shader_bytes_loop_all_fail read_file_bytes paths none hne e hfail hlast

/-- C9 witness: the pipeline's two candidates with the shader present at the
second one only. -/
theorem read_shader_bytes_result_witness :
    read_shader_bytes read_parent_only grid_shader_paths =
      (Except.ok [3, 2, 35, 7], grid_shader_paths) :=
  (read_shader_bytes_result read_parent_only).1 ["shaders/ground_grid.spv"]
    "../shaders/ground_grid.spv" [] [3, 2, 35, 7]
    (by intro q hq; rw [List.mem_singleton.mp hq]; exact ⟨Exception.other 2, by simp [read_parent_only]⟩)
    (by simp [read_parent_only])

/-! ## Grid draw in the render pass -/

theorem record_commands_trace_drawn (st : RecordState) (frame_index image_index : Nat)
    (h : 0 < st.grid_mesh.index_count ∧
      (st.grid.show_grid = true ∨ st.grid.show_axes = true ∨ st.grid.show_origin = true)) :
    (record_commands st frame_index image_index).2 =
      [Cmd.pipelineBarrier2 (barrier_to_color
          (st.swapchain_image_layout.getD image_index ImageLayout.eUndefined) image_index),
        Cmd.pipelineBarrier2 (barrier_to_depth st.depth_layout),
        Cmd.beginRendering image_index,
        Cmd.setViewport, Cmd.setScissor, Cmd.bindPipeline,
        Cmd.pushConstants (make_grid_push st.grid st.grid_mvp), Cmd.bindVertexBuffers,
        Cmd.bindIndexBuffer, Cmd.drawIndexed st.grid_mesh.index_count 1 0 0 0,
        Cmd.endRendering, Cmd.imgui_render image_index, Cmd.imgui_end_frame,
        Cmd.pipelineBarrier2 (barrier_to_present image_index)] := by
  have hc : (decide (st.grid_mesh.index_count > 0) &&
      (st.grid.show_grid || st.grid.show_axes || st.grid.show_origin)) = true := by
    simpa [or_assoc] using h
  simp only [record_commands, hc, if_true, List.cons_append, List.nil_append]

theorem record_commands_trace_skipped (st : RecordState) (frame_index image_index : Nat)
    (h : ¬ (0 < st.grid_mesh.index_count ∧
      (st.grid.show_grid = true ∨ st.grid.show_axes = true ∨ st.grid.show_origin = true))) :
    (record_commands st frame_index image_index).2 =
      [Cmd.pipelineBarrier2 (barrier_to_color
          (st.swapchain_image_layout.getD image_index ImageLayout.eUndefined) image_index),
        Cmd.pipelineBarrier2 (barrier_to_depth st.depth_layout),
        Cmd.beginRendering image_index,
        Cmd.setViewport, Cmd.setScissor,
        Cmd.endRendering, Cmd.imgui_render image_index, Cmd.imgui_end_frame,
        Cmd.pipelineBarrier2 (barrier_to_present image_index)] := by
  have hc : (decide (st.grid_mesh.index_count > 0) &&
      (st.grid.show_grid || st.grid.show_axes || st.grid.show_origin)) = false := by
    rw [← Bool.not_eq_true]
    simpa [or_assoc] using h
  simp only [record_commands, hc, Bool.false_eq_true, if_false, List.cons_append,
    List.nil_append, List.append_nil]

/-- C10: `record_commands` records the grid draw (bind pipeline, push constants
from `make_grid_push`, bind vertex and index buffers, `drawIndexed`) between
`beginRendering` and `endRendering` if and only if `grid_mesh.index_count > 0`
and one of `show_grid`, `show_axes`, `show_origin` is set; otherwise nothing but
the viewport and scissor is recorded there and no command of the grid draw is
recorded at all. In both cases the UI render for the same image is recorded,
right after `endRendering`. -/
theorem record_commands_grid_draw (st : RecordState) (frame_index image_index : Nat) :
    ((∃ c ∈ (record_commands st frame_index image_index).2, c.isDrawCall = true) ↔
      (0 < st.grid_mesh.index_count ∧
        (st.grid.show_grid = true ∨ st.grid.show_axes = true ∨ st.grid.show_origin = true))) ∧
    ((0 < st.grid_mesh.index_count ∧
        (st.grid.show_grid = true ∨ st.grid.show_axes = true ∨ st.grid.show_origin = true)) →
      rendering_section (record_commands st frame_index image_index).2 =
        [Cmd.setViewport, Cmd.setScissor, Cmd.bindPipeline,
          Cmd.pushConstants (make_grid_push st.grid st.grid_mvp), Cmd.bindVertexBuffers,
          Cmd.bindIndexBuffer, Cmd.drawIndexed st.grid_mesh.index_count 1 0 0 0]) ∧
    (¬ (0 < st.grid_mesh.index_count ∧
        (st.grid.show_grid = true ∨ st.grid.show_axes = true ∨ st.grid.show_origin = true)) →
      rendering_section (record_commands st frame_index image_index).2 =
        [Cmd.setViewport, Cmd.setScissor] ∧
      ∀ c ∈ (record_commands st frame_index image_index).2, c.isGridDraw = false) ∧
    (∃ pre post, (record_commands st frame_index image_index).2 =
      pre ++ Cmd.endRendering :: Cmd.imgui_render image_index :: post) := by
  by_cases h : 0 < st.grid_mesh.index_count ∧
      (st.grid.show_grid = true ∨ st.grid.show_axes = true ∨ st.grid.show_origin = true)
  · have ht := record_commands_trace_drawn st frame_index image_index h
    refine ⟨⟨fun _ => h, fun _ => ?_⟩, fun _ => ?_, fun hn => absurd h hn, ?_⟩
    · exact ⟨Cmd.drawIndexed st.grid_mesh.index_count 1 0 0 0, by rw [ht]; simp, rfl⟩
    · rw [ht]
      simp [rendering_section, List.dropWhile, List.takeWhile]
    · rw [ht]
      exact ⟨[Cmd.pipelineBarrier2 (barrier_to_color
          (st.swapchain_image_layout.getD image_index ImageLayout.eUndefined) image_index),
        Cmd.pipelineBarrier2 (barrier_to_depth st.depth_layout),
        Cmd.beginRendering image_index,
        Cmd.setViewport, Cmd.setScissor, Cmd.bindPipeline,
        Cmd.pushConstants (make_grid_push st.grid st.grid_mvp), Cmd.bindVertexBuffers,
        Cmd.bindIndexBuffer, Cmd.drawIndexed st.grid_mesh.index_count 1 0 0 0], _, rfl⟩
  · have ht := record_commands_trace_skipped st frame_index image_index h
    have hnone : ∀ c ∈ (record_commands st frame_index image_index).2,
        c.isGridDraw = false := by
      intro c hc
      rw [ht] at hc
      simp only [List.mem_cons, List.mem_singleton, List.not_mem_nil, or_false] at hc
      rcases hc with e | e | e | e | e | e | e | e | e <;> rw [e] <;> rfl
    refine ⟨⟨fun hex => ?_, fun hd => absurd hd h⟩, fun hd => absurd hd h, fun _ => ⟨?_, hnone⟩, ?_⟩
    · obtain ⟨c, hc, hdraw⟩ := hex
      have hg := hnone c hc
      cases c <;> simp_all [Cmd.isDrawCall, Cmd.isGridDraw]
    · rw [ht]
      simp [rendering_section, List.dropWhile, List.takeWhile]
    · rw [ht]
      exact ⟨[Cmd.pipelineBarrier2 (barrier_to_color
          (st.swapchain_image_layout.getD image_index ImageLayout.eUndefined) image_index),
        Cmd.pipelineBarrier2 (barrier_to_depth st.depth_layout),
        Cmd.beginRendering image_index,
        Cmd.setViewport, Cmd.setScissor], _, rfl⟩

/-- C10 witness: a six-index mesh with only the axes shown is drawn. -/
theorem record_commands_grid_draw_witness :
    rendering_section (record_commands record_state_axes 1 2).2 =
      [Cmd.setViewport, Cmd.setScissor, Cmd.bindPipeline,
        Cmd.pushConstants (make_grid_push record_state_axes.grid record_state_axes.grid_mvp),
        Cmd.bindVertexBuffers, Cmd.bindIndexBuffer,
        Cmd.drawIndexed record_state_axes.grid_mesh.index_count 1 0 0 0] :=
  (record_commands_grid_draw record_state_axes 1 2).2.1 ⟨by decide, Or.inr (Or.inl rfl)⟩

/-! ## Ground plane -/

/-- C11: for every extent, `build_ground_plane` returns four vertices at
`(-e, 0, -e)`, `(e, 0, -e)`, `(e, 0, e)`, `(-e, 0, e)` in that order, with
`e = max(0.1, extent)` (the fourth position component is the padding `0`), and
the indices `[0, 1, 2, 0, 2, 3]`; for `extent = 50` the corners are at `-50` and
`50` on X and Z and `0` on Y. Every index is a position of the vertex list, and
the mesh is not empty, so `upload_mesh_safe` hands it to `upload_mesh`. -/
theorem build_ground_plane_quad (extent : Flt) :
    (build_ground_plane extent).vertices.map VertexP3C4.pos =
      [ vec4.mk (Flt.neg (max_with_bound (1 / 10) extent)) (Flt.fin 0)
          (Flt.neg (max_with_bound (1 / 10) extent)) (Flt.fin 0),
        vec4.mk (max_with_bound (1 / 10) extent) (Flt.fin 0)
          (Flt.neg (max_with_bound (1 / 10) extent)) (Flt.fin 0),
        vec4.mk (max_with_bound (1 / 10) extent) (Flt.fin 0)
          (max_with_bound (1 / 10) extent) (Flt.fin 0),
        vec4.mk (Flt.neg (max_with_bound (1 / 10) extent)) (Flt.fin 0)
          (max_with_bound (1 / 10) extent) (Flt.fin 0) ] ∧
    (build_ground_plane extent).vertices.length = 4 ∧
    (build_ground_plane extent).indices = [0, 1, 2, 0, 2, 3] ∧
    (∀ i ∈ (build_ground_plane extent).indices, i < (build_ground_plane extent).vertices.length) ∧
    (build_ground_plane (Flt.fin 50)).vertices.map VertexP3C4.pos =
      [ vec4.mk (Flt.fin (-50)) (Flt.fin 0) (Flt.fin (-50)) (Flt.fin 0),
        vec4.mk (Flt.fin 50) (Flt.fin 0) (Flt.fin (-50)) (Flt.fin 0),
        vec4.mk (Flt.fin 50) (Flt.fin 0) (Flt.fin 50) (Flt.fin 0),
        vec4.mk (Flt.fin (-50)) (Flt.fin 0) (Flt.fin 50) (Flt.fin 0) ] ∧
    (∀ upload_mesh : MeshCPU → MeshGPU,
      upload_mesh_safe upload_mesh (build_ground_plane extent) =
        upload_mesh (build_ground_plane extent)) := by
  have h50 : max_with_bound (1 / 10) (Flt.fin 50) = Flt.fin 50 := by
    simp only [max_with_bound]
    congr 1
    exact max_eq_right (by norm_num)
  refine ⟨?_, rfl, rfl, ?_, ?_, ?_⟩
  · simp only [build_ground_plane, std_max_eq_max_with_bound, List.map_cons, List.map_nil]
  · intro i hi
    simp only [build_ground_plane, List.mem_cons, List.mem_singleton, List.not_mem_nil,
      or_false, List.length_cons, List.length_nil] at hi ⊢
    rcases hi with h | h | h | h | h | h <;> omega
  · simp only [build_ground_plane, std_max_eq_max_with_bound, List.map_cons, List.map_nil,
      h50, Flt.neg]
  · intro upload_mesh
    simp [upload_mesh_safe, build_ground_plane]

/-- C11 witness: with a negative extent the largest index, 3, still names a
vertex. -/
theorem build_ground_plane_quad_witness :
    3 < (build_ground_plane (Flt.fin (-2))).vertices.length :=
  (build_ground_plane_quad (Flt.fin (-2))).2.2.2.1 3 (by simp [build_ground_plane])

/-! ## Layout barriers of the render pass -/

theorem record_commands_log_agrees (st : RecordState) (frame_index image_index : Nat) :
    (record_commands_log st frame_index image_index).1 =
      (record_commands st frame_index image_index).1 ∧
    (record_commands_log st frame_index image_index).2.map Prod.snd =
      (record_commands st frame_index image_index).2 := by
  refine ⟨rfl, ?_⟩
  simp only [record_commands_log, record_commands]
  split_ifs <;> simp

theorem barriers_record_commands (st : RecordState) (frame_index image_index : Nat) :
    barriers (record_commands st frame_index image_index).2 =
      [ barrier_to_color (st.swapchain_image_layout.getD image_index ImageLayout.eUndefined)
          image_index,
        barrier_to_depth st.depth_layout,
        barrier_to_present image_index ] := by
  simp only [record_commands, barriers]
  split_ifs <;> simp [List.filterMap_cons]

theorem record_commands_log_barrier (st : RecordState) (frame_index image_index : Nat)
    (h : image_index < st.swapchain_image_layout.length)
    (s : RecordState) (b : ImageMemoryBarrier2)
    (hmem : (s, Cmd.pipelineBarrier2 b) ∈ (record_commands_log st frame_index image_index).2) :
    b.oldLayout = s.tracked b.image := by
  simp only [record_commands_log] at hmem
  split_ifs at hmem <;>
    simp only [List.cons_append, List.nil_append, List.append_nil, List.mem_cons,
      List.mem_singleton, List.not_mem_nil, or_false, Prod.mk.injEq, Cmd.pipelineBarrier2.injEq,
      reduceCtorEq, and_false, false_or, or_false] at hmem <;>
    rcases hmem with ⟨hs, hb⟩ | ⟨hs, hb⟩ | ⟨hs, hb⟩ <;>
    subst hs <;> subst hb <;>
    simp [RecordState.tracked, barrier_to_color, barrier_to_depth, barrier_to_present,
      List.getD_eq_getElem?_getD, List.getElem?_set, h]

/-- C12: for every tracker state and in-range `image_index`, `record_commands`
records exactly three layout barriers, in this order: colour image
`image_index` from its tracked layout to `eColorAttachmentOptimal`, the depth
image from the tracked depth layout to `eDepthStencilAttachmentOptimal`, colour
image `image_index` from `eColorAttachmentOptimal` to `ePresentSrcKHR`; the old
layout of each barrier is what the tracker holds for its image at the moment
the barrier is recorded. Afterwards the entry of `image_index` is
`ePresentSrcKHR`, `depth_layout` is `eDepthStencilAttachmentOptimal`, and the
entry of every other image is as before. -/
theorem record_commands_barriers (st : RecordState) (frame_index image_index : Nat)
    (h : image_index < st.swapchain_image_layout.length) :
    (barriers (record_commands st frame_index image_index).2).map
        ImageMemoryBarrier2.transition =
      [ (ImageRef.swapchain_image image_index,
          st.tracked (ImageRef.swapchain_image image_index),
          ImageLayout.eColorAttachmentOptimal),
        (ImageRef.depth_image, st.tracked ImageRef.depth_image,
          ImageLayout.eDepthStencilAttachmentOptimal),
        (ImageRef.swapchain_image image_index, ImageLayout.eColorAttachmentOptimal,
          ImageLayout.ePresentSrcKHR) ] ∧
    (record_commands_log st frame_index image_index).2.map Prod.snd =
      (record_commands st frame_index image_index).2 ∧
    (∀ (s : RecordState) (b : ImageMemoryBarrier2),
      (s, Cmd.pipelineBarrier2 b) ∈ (record_commands_log st frame_index image_index).2 →
      b.oldLayout = s.tracked b.image) ∧
    (record_commands st frame_index image_index).1.tracked
        (ImageRef.swapchain_image image_index) = ImageLayout.ePresentSrcKHR ∧
    (record_commands st frame_index image_index).1.depth_layout =
      ImageLayout.eDepthStencilAttachmentOptimal ∧
    (∀ j : Nat, j ≠ image_index →
      (record_commands st frame_index image_index).1.tracked (ImageRef.swapchain_image j) =
        st.tracked (ImageRef.swapchain_image j)) ∧
    (record_commands st frame_index image_index).1.swapchain_image_layout.length =
      st.swapchain_image_layout.length := by
  refine ⟨?_, (record_commands_log_agrees st frame_index image_index).2,
    record_commands_log_barrier st frame_index image_index h, ?_, rfl, ?_, ?_⟩
  · rw [barriers_record_commands]
    rfl
  · simp [record_commands, RecordState.tracked, List.getD_eq_getElem?_getD,
      List.getElem?_set, h]
  · intro j hj
    have hj2 : ¬ image_index = j := fun e => hj e.symm
    simp [record_commands, RecordState.tracked, List.getD_eq_getElem?_getD,
      List.getElem?_set, hj2]
  · simp [record_commands]

/-- C12 witness: image 1 of three, last presented, with a fresh depth image. -/
theorem record_commands_barriers_witness :
    (barriers (record_commands record_state_axes 0 1).2).map
        ImageMemoryBarrier2.transition =
      [ (ImageRef.swapchain_image 1, ImageLayout.ePresentSrcKHR,
          ImageLayout.eColorAttachmentOptimal),
        (ImageRef.depth_image, ImageLayout.eUndefined,
          ImageLayout.eDepthStencilAttachmentOptimal),
        (ImageRef.swapchain_image 1, ImageLayout.eColorAttachmentOptimal,
          ImageLayout.ePresentSrcKHR) ] :=
  (record_commands_barriers record_state_axes 0 1 (by decide)).1

/-! ## Accumulation of pointer and scroll deltas -/

theorem glfw_key_cb_pointer (s : InputState) (key action : Int) :
    (glfw_key_cb s key action).dx = s.dx ∧ (glfw_key_cb s key action).dy = s.dy ∧
    (glfw_key_cb s key action).last_x = s.last_x ∧
    (glfw_key_cb s key action).last_y = s.last_y ∧
    (glfw_key_cb s key action).have_last = s.have_last ∧
    (glfw_key_cb s key action).scroll = s.scroll := by
  simp only [glfw_key_cb]
  split_ifs <;> simp

theorem glfw_mouse_button_cb_press (s : InputState) (button : Int) :
    (glfw_mouse_button_cb s button GLFW_PRESS).dx = s.dx ∧
    (glfw_mouse_button_cb s button GLFW_PRESS).dy = s.dy ∧
    (glfw_mouse_button_cb s button GLFW_PRESS).last_x = s.last_x ∧
    (glfw_mouse_button_cb s button GLFW_PRESS).last_y = s.last_y ∧
    (glfw_mouse_button_cb s button GLFW_PRESS).have_last = s.have_last := by
  have hd : decide (GLFW_PRESS = GLFW_PRESS) = true := by decide
  simp only [glfw_mouse_button_cb, hd]
  split_ifs <;> simp_all

theorem glfw_mouse_button_cb_scroll (s : InputState) (button action : Int) :
    (glfw_mouse_button_cb s button action).scroll = s.scroll := by
  simp only [glfw_mouse_button_cb]
  split_ifs <;> simp_all

theorem poll_tracking (cbs : List GlfwCallback) :
    ∀ (s : InputState) (d l : ℚ × ℚ) (ps : List (ℚ × ℚ)),
      s.have_last = true → s.dx = Flt.fin d.1 → s.dy = Flt.fin d.2 →
      s.last_x = Flt.fin l.1 → s.last_y = Flt.fin l.2 →
      (∀ button action, GlfwCallback.mouse_button button action ∈ cbs → action = GLFW_PRESS) →
      cursor_positions cbs = ps.map exact_position →
      (glfwPollEvents s cbs).have_last = true ∧
      (glfwPollEvents s cbs).dx =
        Flt.fin (d.1 + ((l :: ps).getLast (List.cons_ne_nil l ps)).1 - l.1) ∧
      (glfwPollEvents s cbs).dy =
        Flt.fin (d.2 + ((l :: ps).getLast (List.cons_ne_nil l ps)).2 - l.2) ∧
      (glfwPollEvents s cbs).last_x = Flt.fin ((l :: ps).getLast (List.cons_ne_nil l ps)).1 ∧
      (glfwPollEvents s cbs).last_y = Flt.fin ((l :: ps).getLast (List.cons_ne_nil l ps)).2 := by
  induction cbs with
  | nil =>
    intro s d l ps hh hdx hdy hlx hly _ hpos
    have hps : ps = [] := by
      cases ps with
      | nil => rfl
      | cons p rest => simp [cursor_positions] at hpos
    subst hps
    simp [glfwPollEvents, hh, hdx, hdy, hlx, hly]
  | cons cb rest ih =>
    intro s d l ps hh hdx hdy hlx hly hpress hpos
    have hpress2 : ∀ button action, GlfwCallback.mouse_button button action ∈ rest →
        action = GLFW_PRESS := fun b a hm => hpress b a (List.mem_cons_of_mem cb hm)
    cases cb with
    | key k a =>
      obtain ⟨e1, e2, e3, e4, e5, _⟩ := glfw_key_cb_pointer s k a
      have hpos2 : cursor_positions rest = ps.map exact_position := by
        simpa [cursor_positions] using hpos
      exact ih (glfw_key_cb s k a) d l ps (e5.trans hh) (e1.trans hdx) (e2.trans hdy)
        (e3.trans hlx) (e4.trans hly) hpress2 hpos2
    | mouse_button b a =>
      have ha : a = GLFW_PRESS := hpress b a (List.mem_cons_self _ _)
      subst ha
      obtain ⟨e1, e2, e3, e4, e5⟩ := glfw_mouse_button_cb_press s b
      have hpos2 : cursor_positions rest = ps.map exact_position := by
        simpa [cursor_positions] using hpos
      exact ih (glfw_mouse_button_cb s b GLFW_PRESS) d l ps (e5.trans hh) (e1.trans hdx)
        (e2.trans hdy) (e3.trans hlx) (e4.trans hly) hpress2 hpos2
    | scroll xo yo =>
      have hpos2 : cursor_positions rest = ps.map exact_position := by
        simpa [cursor_positions] using hpos
      exact ih (glfw_scroll_cb s xo yo) d l ps hh hdx hdy hlx hly hpress2 hpos2
    | cursor_pos x y =>
      cases ps with
      | nil => simp [cursor_positions] at hpos
      | cons p ps2 =>
        have hpos1 : (x, y) :: cursor_positions rest
            = exact_position p :: ps2.map exact_position := by
          simpa [cursor_positions] using hpos
        injection hpos1 with hxy hpos2
        have hx : x = Flt.fin p.1 := congrArg Prod.fst hxy
        have hy : y = Flt.fin p.2 := congrArg Prod.snd hxy
        subst hx; subst hy
        have hstep := ih (glfw_cursor_pos_cb s (Flt.fin p.1) (Flt.fin p.2))
          (d.1 + (p.1 - l.1), d.2 + (p.2 - l.2)) p ps2
          (by simp [glfw_cursor_pos_cb, hh])
          (by simp [glfw_cursor_pos_cb, hh, hdx, hlx, Flt.add, Flt.sub, Flt.neg, sub_eq_add_neg])
          (by simp [glfw_cursor_pos_cb, hh, hdy, hly, Flt.add, Flt.sub, Flt.neg, sub_eq_add_neg])
          (by simp [glfw_cursor_pos_cb, hh])
          (by simp [glfw_cursor_pos_cb, hh])
          hpress2 hpos2
        have hlast : (l :: p :: ps2).getLast (List.cons_ne_nil l (p :: ps2))
            = (p :: ps2).getLast (List.cons_ne_nil p ps2) :=
          List.getLast_cons (List.cons_ne_nil p ps2)
        rw [hlast]
        obtain ⟨h1, h2, h3, h4, h5⟩ := hstep
        refine ⟨h1, ?_, ?_, h4, h5⟩
        · rw [show glfwPollEvents s (GlfwCallback.cursor_pos (Flt.fin p.1) (Flt.fin p.2) :: rest)
            = glfwPollEvents (glfw_cursor_pos_cb s (Flt.fin p.1) (Flt.fin p.2)) rest from rfl, h2]
          congr 1
          ring
        · rw [show glfwPollEvents s (GlfwCallback.cursor_pos (Flt.fin p.1) (Flt.fin p.2) :: rest)
            = glfwPollEvents (glfw_cursor_pos_cb s (Flt.fin p.1) (Flt.fin p.2)) rest from rfl, h3]
          congr 1
          ring

theorem poll_first_position (cbs : List GlfwCallback) :
    ∀ (s : InputState) (p0 : ℚ × ℚ) (ps : List (ℚ × ℚ)),
      s.have_last = false → s.dx = Flt.fin 0 → s.dy = Flt.fin 0 →
      (∀ button action, GlfwCallback.mouse_button button action ∈ cbs → action = GLFW_PRESS) →
      cursor_positions cbs = (p0 :: ps).map exact_position →
      (glfwPollEvents s cbs).have_last = true ∧
      (glfwPollEvents s cbs).dx =
        Flt.fin (((p0 :: ps).getLast (List.cons_ne_nil p0 ps)).1 - p0.1) ∧
      (glfwPollEvents s cbs).dy =
        Flt.fin (((p0 :: ps).getLast (List.cons_ne_nil p0 ps)).2 - p0.2) ∧
      (glfwPollEvents s cbs).last_x = Flt.fin ((p0 :: ps).getLast (List.cons_ne_nil p0 ps)).1 ∧
      (glfwPollEvents s cbs).last_y = Flt.fin ((p0 :: ps).getLast (List.cons_ne_nil p0 ps)).2 := by
  induction cbs with
  | nil =>
    intro s p0 ps _ _ _ _ hpos
    simp [cursor_positions] at hpos
  | cons cb rest ih =>
    intro s p0 ps hh hdx hdy hpress hpos
    have hpress2 : ∀ button action, GlfwCallback.mouse_button button action ∈ rest →
        action = GLFW_PRESS := fun b a hm => hpress b a (List.mem_cons_of_mem cb hm)
    cases cb with
    | key k a =>
      obtain ⟨e1, e2, _, _, e5, _⟩ := glfw_key_cb_pointer s k a
      have hpos2 : cursor_positions rest = (p0 :: ps).map exact_position := by
        simpa [cursor_positions] using hpos
      exact ih (glfw_key_cb s k a) p0 ps (e5.trans hh) (e1.trans hdx) (e2.trans hdy)
        hpress2 hpos2
    | mouse_button b a =>
      have ha : a = GLFW_PRESS := hpress b a (List.mem_cons_self _ _)
      subst ha
      obtain ⟨e1, e2, _, _, e5⟩ := glfw_mouse_button_cb_press s b
      have hpos2 : cursor_positions rest = (p0 :: ps).map exact_position := by
        simpa [cursor_positions] using hpos
      exact ih (glfw_mouse_button_cb s b GLFW_PRESS) p0 ps (e5.trans hh) (e1.trans hdx)
        (e2.trans hdy) hpress2 hpos2
    | scroll xo yo =>
      have hpos2 : cursor_positions rest = (p0 :: ps).map exact_position := by
        simpa [cursor_positions] using hpos
      exact ih (glfw_scroll_cb s xo yo) p0 ps hh hdx hdy hpress2 hpos2
    | cursor_pos x y =>
      have hpos1 : (x, y) :: cursor_positions rest
          = exact_position p0 :: ps.map exact_position := by
        simpa [cursor_positions] using hpos
      injection hpos1 with hxy hpos2
      have hx : x = Flt.fin p0.1 := congrArg Prod.fst hxy
      have hy : y = Flt.fin p0.2 := congrArg Prod.snd hxy
      subst hx; subst hy
      have hstep := poll_tracking rest (glfw_cursor_pos_cb s (Flt.fin p0.1) (Flt.fin p0.2))
        (0, 0) p0 ps
        (by simp [glfw_cursor_pos_cb, hh])
        (by simp [glfw_cursor_pos_cb, hh, hdx])
        (by simp [glfw_cursor_pos_cb, hh, hdy])
        (by simp [glfw_cursor_pos_cb, hh])
        (by simp [glfw_cursor_pos_cb, hh])
        hpress2 hpos2
      simpa [glfwPollEvents] using hstep

theorem poll_scroll (cbs : List GlfwCallback) :
    ∀ (s : InputState) (s0 : ℚ) (qs : List ℚ),
      s.scroll = Flt.fin s0 → scroll_offsets cbs = qs.map Flt.fin →
      (glfwPollEvents s cbs).scroll = Flt.fin (s0 + qs.sum) := by
  induction cbs with
  | nil =>
    intro s s0 qs hs hoff
    have hqs : qs = [] := by
      cases qs with
      | nil => rfl
      | cons q rest => simp [scroll_offsets] at hoff
    subst hqs
    simp [glfwPollEvents, hs]
  | cons cb rest ih =>
    intro s s0 qs hs hoff
    cases cb with
    | key k a =>
      have hoff2 : scroll_offsets rest = qs.map Flt.fin := by
        simpa [scroll_offsets] using hoff
      exact ih (glfw_key_cb s k a) s0 qs ((glfw_key_cb_pointer s k a).2.2.2.2.2.trans hs) hoff2
    | mouse_button b a =>
      have hoff2 : scroll_offsets rest = qs.map Flt.fin := by
        simpa [scroll_offsets] using hoff
      exact ih (glfw_mouse_button_cb s b a) s0 qs
        ((glfw_mouse_button_cb_scroll s b a).trans hs) hoff2
    | cursor_pos x y =>
      have hoff2 : scroll_offsets rest = qs.map Flt.fin := by
        simpa [scroll_offsets] using hoff
      have hsc : (glfw_cursor_pos_cb s x y).scroll = s.scroll := by
        simp only [glfw_cursor_pos_cb]
        split_ifs <;> rfl
      exact ih (glfw_cursor_pos_cb s x y) s0 qs (hsc.trans hs) hoff2
    | scroll xo yo =>
      cases qs with
      | nil => simp [scroll_offsets] at hoff
      | cons q qs2 =>
        have hoff1 : yo :: scroll_offsets rest = Flt.fin q :: qs2.map Flt.fin := by
          simpa [scroll_offsets] using hoff
        injection hoff1 with hyo hoff2
        subst hyo
        have hstep := ih (glfw_scroll_cb s xo (Flt.fin q)) (s0 + q) qs2
          (by simp [glfw_scroll_cb, hs, Flt.add]) hoff2
        rw [show glfwPollEvents s (GlfwCallback.scroll xo (Flt.fin q) :: rest)
          = glfwPollEvents (glfw_scroll_cb s xo (Flt.fin q)) rest from rfl, hstep]
        congr 1
        rw [List.sum_cons]
        ring

/-- C13: in exact arithmetic, let callbacks be delivered to an input state with
`have_last = false` and `dx = dy = 0`, none of them a button callback other than
a press, and let the cursor callbacks among them carry the finite positions
`(x0, y0), ..., (xn, yn)`, at least one. Then the accumulated delta is the net
displacement `dx = xn - x0`, `dy = yn - y0`, and the stored baseline is
`(xn, yn)`; the first position only sets the baseline. Likewise, whatever
callbacks are delivered, the scroll callbacks among them add the sum of their
finite y offsets to `scroll`, which from `scroll = 0` is that sum. -/
theorem deltas_accumulate :
    (∀ (s : InputState) (cbs : List GlfwCallback) (p0 : ℚ × ℚ) (ps : List (ℚ × ℚ)),
      s.have_last = false → s.dx = Flt.fin 0 → s.dy = Flt.fin 0 →
      (∀ button action, GlfwCallback.mouse_button button action ∈ cbs → action = GLFW_PRESS) →
      cursor_positions cbs = (p0 :: ps).map exact_position →
      (glfwPollEvents s cbs).dx =
        Flt.fin (((p0 :: ps).getLast (List.cons_ne_nil p0 ps)).1 - p0.1) ∧
      (glfwPollEvents s cbs).dy =
        Flt.fin (((p0 :: ps).getLast (List.cons_ne_nil p0 ps)).2 - p0.2) ∧
      (glfwPollEvents s cbs).last_x = Flt.fin ((p0 :: ps).getLast (List.cons_ne_nil p0 ps)).1 ∧
      (glfwPollEvents s cbs).last_y = Flt.fin ((p0 :: ps).getLast (List.cons_ne_nil p0 ps)).2 ∧
      (glfwPollEvents s cbs).have_last = true) ∧
    (∀ (s : InputState) (x y : Flt), s.have_last = false →
      glfw_cursor_pos_cb s x y = { s with last_x := x, last_y := y, have_last := true }) ∧
    (∀ (s : InputState) (cbs : List GlfwCallback) (s0 : ℚ) (qs : List ℚ),
      s.scroll = Flt.fin s0 → scroll_offsets cbs = qs.map Flt.fin →
      (glfwPollEvents s cbs).scroll = Flt.fin (s0 + qs.sum)) ∧
    (∀ (s : InputState) (cbs : List GlfwCallback) (qs : List ℚ),
      s.scroll = Flt.fin 0 → scroll_offsets cbs = qs.map Flt.fin →
      (glfwPollEvents s cbs).scroll = Flt.fin qs.sum) := by
  refine ⟨?_, ?_, ?_, ?_⟩
  · intro s cbs p0 ps hh hdx hdy hpress hpos
    obtain ⟨h1, h2, h3, h4, h5⟩ := poll_first_position cbs s p0 ps hh hdx hdy hpress hpos
    exact ⟨h2, h3, h4, h5, h1⟩
  · intro s x y hh
    simp [glfw_cursor_pos_cb, hh]
  · intro s cbs s0 qs hs hoff
    exact poll_scroll cbs s s0 qs hs hoff
  · intro s cbs qs hs hoff
    have h := poll_scroll cbs s 0 qs hs hoff
    rwa [zero_add] at h

/-- C13 witness: a drag through `(10, 10)`, `(13, 8)`, `(11, 15)` with a key
press, a button press and scroll steps `1` and `-3` in between. -/
theorem deltas_accumulate_witness :
    (glfwPollEvents input_fresh drag_callbacks).dx = Flt.fin (11 - 10) ∧
    (glfwPollEvents input_fresh drag_callbacks).dy = Flt.fin (15 - 10) ∧
    (glfwPollEvents input_fresh drag_callbacks).last_x = Flt.fin 11 ∧
    (glfwPollEvents input_fresh drag_callbacks).last_y = Flt.fin 15 ∧
    (glfwPollEvents input_fresh drag_callbacks).scroll = Flt.fin ([1, -3] : List ℚ).sum := by
  have hc := deltas_accumulate.1 input_fresh drag_callbacks (10, 10) [(13, 8), (11, 15)]
    rfl rfl rfl
    (by
      intro button action hm
      simp only [drag_callbacks, List.mem_cons, List.mem_singleton, List.not_mem_nil,
        reduceCtorEq, GlfwCallback.mouse_button.injEq, false_or, or_false] at hm
      exact hm.2)
    (by simp [cursor_positions, drag_callbacks, exact_position])
  have hs := deltas_accumulate.2.2.2 input_fresh drag_callbacks [1, -3] rfl
    (by simp [scroll_offsets, drag_callbacks])
  exact ⟨hc.1, hc.2.1, hc.2.2.1, hc.2.2.2.1, hs⟩

end Rays
